import Mathlib

/-!
Shallow embedding of `src/tools/createExamples_h5.py`, an openPMD example-file
generator.  The HDF5 file handle `f` is modelled as an explicit state value
(`H5File`) holding root attributes, node attributes, datasets and groups.
Numeric literals of the script are modelled as exact rationals; the h5py
`f4` storage type performs a value-preserving copy in this model.  Writers
return `Except (PyErr × H5File) H5File`: a raised Python exception carries the
file state at the moment of the raise, exactly as the mutated h5py file
persists past an exception.
-/

/-- Attribute values stored in the file: strings, scalar numbers, or
one-dimensional numeric arrays (the `np.array([...])` attribute values). -/
inductive AttrVal where
  | str (s : String)
  | num (q : ℚ)
  | vec (qs : List ℚ)
deriving DecidableEq

/-- Python exceptions the script can raise: the explicit `ValueError` of
`write_rho_cylindrical`, h5py's `KeyError` on a missing attribute, the
`NameError` on an undefined global, and h5py's error when creating a node at
an already-occupied path. -/
inductive PyErr where
  | valueError (msg : String)
  | keyError (name : String)
  | nameError (name : String)
  | duplicateNode (path : String)
deriving DecidableEq

/-- An HDF5 dataset: a shape and the stored numeric contents, indexed by a
multi-index.  h5py zero-fills numeric datasets at creation. -/
structure DSet where
  shape : List Nat
  data : List Nat → ℚ

/-- A 2-D numpy array of reals: `shape = (rows, cols)` with entry values. -/
structure Arr2 where
  rows : Nat
  cols : Nat
  val : Nat → Nat → ℚ

/-- The numpy `.shape` tuple of a real 2-D array. -/
def Arr2.shape (a : Arr2) : Nat × Nat := (a.rows, a.cols)

/-- A 2-D numpy array of complexes, as real and imaginary parts. -/
structure CArr2 where
  rows : Nat
  cols : Nat
  re : Nat → Nat → ℚ
  im : Nat → Nat → ℚ

/-- The numpy `.shape` tuple of a complex 2-D array. -/
def CArr2.shape (a : CArr2) : Nat × Nat := (a.rows, a.cols)

/-- The h5py file: root attributes, per-node attributes keyed by
`(path, attribute name)`, datasets keyed by path, and created group paths.
New writes are consed to the front; lookups take the first (most recent)
match, so rewriting a key overwrites. -/
structure H5File where
  rootAttrs : List (String × AttrVal)
  nodeAttrs : List (String × String × AttrVal)
  datasets : List (String × DSet)
  groups : List String

/-- A freshly opened (truncated) file. -/
def H5File.empty : H5File := ⟨[], [], [], []⟩

/-- First-match association-list lookup. -/
def lookupA {α : Type} : List (String × α) → String → Option α
  | [], _ => none
  | (k, v) :: rest, key => if key = k then some v else lookupA rest key

/-- Membership test on a list of paths. -/
def memA : List String → String → Bool
  | [], _ => false
  | s :: rest, key => if key = s then true else memA rest key

/-- First-match lookup of a node attribute by path and attribute name. -/
def getAttrList : List (String × String × AttrVal) → String → String → Option AttrVal
  | [], _, _ => none
  | (p, n, v) :: rest, path, name =>
      if path = p ∧ name = n then some v else getAttrList rest path name

/-- `f.attrs[name]` at the root. -/
def H5File.rootAttr (f : H5File) (name : String) : Option AttrVal :=
  lookupA f.rootAttrs name

/-- `f.attrs[name]` at the root, required to be a string (as when the script
concatenates it into a path). -/
def H5File.rootStr (f : H5File) (name : String) : Option String :=
  match f.rootAttr name with
  | some (.str s) => some s
  | _ => none

/-- `f.attrs[name] = v` at the root. -/
def H5File.setRootAttr (f : H5File) (name : String) (v : AttrVal) : H5File :=
  { f with rootAttrs := (name, v) :: f.rootAttrs }

/-- `f[path].attrs[name] = v`. -/
def H5File.setAttr (f : H5File) (path name : String) (v : AttrVal) : H5File :=
  { f with nodeAttrs := (path, name, v) :: f.nodeAttrs }

/-- `f[path].attrs[name]`. -/
def H5File.getAttr (f : H5File) (path name : String) : Option AttrVal :=
  getAttrList f.nodeAttrs path name

/-- Whether a dataset or group already occupies `path`. -/
def H5File.hasNode (f : H5File) (path : String) : Bool :=
  (lookupA f.datasets path).isSome || memA f.groups path

/-- `f.create_dataset(path, shape, dtype='f4')`: fails if the path is taken,
otherwise records a zero-filled dataset of the given shape. -/
def H5File.create_dataset (f : H5File) (path : String) (shape : List Nat) :
    Except (PyErr × H5File) H5File :=
  if f.hasNode path then .error (.duplicateNode path, f)
  else .ok { f with datasets := (path, ⟨shape, fun _ => 0⟩) :: f.datasets }

/-- `f.create_group(path)`: fails if the path is taken. -/
def H5File.create_group (f : H5File) (path : String) :
    Except (PyErr × H5File) H5File :=
  if f.hasNode path then .error (.duplicateNode path, f)
  else .ok { f with groups := path :: f.groups }

/-- Apply an in-place modification to the dataset stored at `path`. -/
def H5File.updateDSet (f : H5File) (path : String) (g : DSet → DSet) : H5File :=
  { f with datasets := f.datasets.map (fun kv => if kv.1 = path then (kv.1, g kv.2) else kv) }

/-- `d[k, :, :] = g`: slice-assign a 2-D array into layer `k` of a 3-D
dataset. -/
def DSet.setLayer (d : DSet) (k : Nat) (g : Nat → Nat → ℚ) : DSet :=
  { d with data := fun idx =>
      match idx with
      | [l, i, j] => if l = k then g i j else d.data [l, i, j]
      | _ => d.data idx }

/-- `d[:, :] = g`: overwrite a whole 2-D dataset. -/
def DSet.setAll2 (d : DSet) (g : Nat → Nat → ℚ) : DSet :=
  { d with data := fun idx =>
      match idx with
      | [i, j] => g i j
      | _ => d.data idx }

/-- Embedding of `setup_root_attr` (source lines 24-49).  The generation
timestamp `datetime.datetime.now(tzlocal()).strftime(...)` is an external
clock reading and is passed in as the string `date`; `"/data/%d/" % iteration`
is integer formatting of the iteration index. -/
def setup_root_attr (f : H5File) (iteration : Int) (date : String) : H5File :=
  f |>.setRootAttr "version" (.str "1.0.0")
    |>.setRootAttr "basePath" (.str ("/data/" ++ toString iteration ++ "/"))
    |>.setRootAttr "fieldsPath" (.str "fields/")
    |>.setRootAttr "particlesPath" (.str "particles/")
    |>.setRootAttr "iterationEncoding" (.str "fileBased")
    |>.setRootAttr "iterationFormat" (.str "/data/%T/")
    |>.setRootAttr "author" (.str "Axel Huebl <a.huebl@hzdr.de>")
    |>.setRootAttr "software" (.str "OpenPMD Example Script")
    |>.setRootAttr "date" (.str date)
    |>.setRootAttr "comment" (.str "This is a dummy file for test purposes.")

/-- Embedding of `add_EDPIC_attr_fields` (source lines 159-184): the five
uncommented attribute writes. -/
def add_EDPIC_attr_fields (f : H5File) (fieldName : String) : H5File :=
  f |>.setAttr fieldName "fieldSolver" (.str "Yee")
    |>.setAttr fieldName "fieldSolverOrder" (.num 2)
    |>.setAttr fieldName "fieldSmoothing" (.str "none")
    |>.setAttr fieldName "currentSmoothing" (.str "none")
    |>.setAttr fieldName "chargeCorrection" (.str "none")

/-- Embedding of `add_EDPIC_attr_particles` (source lines 186-207): defined
by the script but, because of the misspelt call at line 228, never reached. -/
def add_EDPIC_attr_particles (f : H5File) (particleName : String) : H5File :=
  f |>.setAttr particleName "particleShape" (.num 3)
    |>.setAttr particleName "currentDeposition" (.str "Esirkepov")
    |>.setAttr particleName "particlePush" (.str "Boris")
    |>.setAttr particleName "particleInterpolation" (.str "Trilinear")
    |>.setAttr particleName "particleSmoothing" (.str "none")

/-- The message of the `ValueError` at source line 102. -/
def shapeMsg : String := "`mode0` and `mode1` should have the same shape"

/-- `1.e-9` as an exact rational. -/
def qNano : ℚ := 1 / 10 ^ 9

/-- `1.60217657e-19` as an exact rational. -/
def qCharge : ℚ := 160217657 / 10 ^ 27

/-- `9.10938291e-31` as an exact rational. -/
def qMass : ℚ := 910938291 / 10 ^ 39

/-- Embedding of `write_rho_cylindrical` (source lines 52-105), step for step
in source order: path construction from root attributes (line 71), dataset
creation with leading axis 3 and mode0's shape (line 75), the attribute
writes (lines 76-95), the PIC attributes (line 98), the shape check
(lines 101-102) and, only past the check, the three layer fills
(lines 103-105). -/
def write_rho_cylindrical (f : H5File) (mode0 : Arr2) (mode1 : CArr2) :
    Except (PyErr × H5File) H5File :=
  match f.rootStr "basePath", f.rootStr "fieldsPath" with
  | some bp, some fp =>
    let full_rho_path := bp ++ fp ++ "rho"
    match f.create_dataset full_rho_path [3, mode0.rows, mode0.cols] with
    | .error e => .error e
    | .ok f1 =>
      let f2 := f1
        |>.setAttr full_rho_path "geometry" (.str "cylindrical")
        |>.setAttr full_rho_path "geometryParameters" (.str "m=1; imag=+")
        |>.setAttr full_rho_path "unitSI" (.num 1)
        |>.setAttr full_rho_path "unitDimension" (.vec [-3, 0, 1, 1, 0, 0, 0])
        |>.setAttr full_rho_path "time" (.num 0)
        |>.setAttr full_rho_path "timeUnitSI" (.num qNano)
        |>.setAttr full_rho_path "gridSpacing" (.vec [1, 1])
        |>.setAttr full_rho_path "gridGlobalOffset" (.vec [0, 0])
        |>.setAttr full_rho_path "position" (.vec [0, 0])
        |>.setAttr full_rho_path "gridUnitSI" (.num 1)
        |>.setAttr full_rho_path "dataOrder" (.str "C")
      let f3 := add_EDPIC_attr_fields f2 full_rho_path
      if mode0.shape ≠ mode1.shape then
        .error (.valueError shapeMsg, f3)
      else
        .ok (f3
          |>.updateDSet full_rho_path (fun d => d.setLayer 0 mode0.val)
          |>.updateDSet full_rho_path (fun d => d.setLayer 1 mode1.re)
          |>.updateDSet full_rho_path (fun d => d.setLayer 2 mode1.im))
  | _, _ => .error (.keyError "basePath or fieldsPath", f)

/-- Embedding of `write_e_2d_cartesian` (source lines 108-156) in source
order: path construction (line 123), the three component dataset creations
(lines 126-128), the shared group attributes (lines 131-139), the PIC
attributes (line 142), the time attributes (lines 145-146), the per-component
stagger positions (lines 149-151) and the fills (lines 154-156). -/
def write_e_2d_cartesian (f : H5File) (data_ex data_ey data_ez : Arr2) :
    Except (PyErr × H5File) H5File :=
  match f.rootStr "basePath", f.rootStr "fieldsPath" with
  | some bp, some fp =>
    let full_e_path := bp ++ fp ++ "E/"
    match f.create_dataset (full_e_path ++ "x") [data_ex.rows, data_ex.cols] with
    | .error e => .error e
    | .ok f1 =>
      match f1.create_dataset (full_e_path ++ "y") [data_ey.rows, data_ey.cols] with
      | .error e => .error e
      | .ok f2 =>
        match f2.create_dataset (full_e_path ++ "z") [data_ez.rows, data_ez.cols] with
        | .error e => .error e
        | .ok f3 =>
          let f4 := f3
            |>.setAttr full_e_path "geometry" (.str "cartesian")
            |>.setAttr full_e_path "gridSpacing" (.vec [1, 1])
            |>.setAttr full_e_path "gridGlobalOffset" (.vec [0, 0])
            |>.setAttr full_e_path "gridUnitSI" (.num 1)
            |>.setAttr full_e_path "dataOrder" (.str "C")
            |>.setAttr full_e_path "unitDimension" (.vec [1, 1, -3, -1, 0, 0, 0])
          let f5 := add_EDPIC_attr_fields f4 full_e_path
          let f6 := f5
            |>.setAttr full_e_path "time" (.num 0)
            |>.setAttr full_e_path "timeUnitSI" (.num qNano)
            |>.setAttr (full_e_path ++ "x") "position" (.vec [0, 1/2])
            |>.setAttr (full_e_path ++ "y") "position" (.vec [1/2, 0])
            |>.setAttr (full_e_path ++ "z") "position" (.vec [0, 0])
          .ok (f6
            |>.updateDSet (full_e_path ++ "x") (fun d => d.setAll2 data_ex.val)
            |>.updateDSet (full_e_path ++ "y") (fun d => d.setAll2 data_ey.val)
            |>.updateDSet (full_e_path ++ "z") (fun d => d.setAll2 data_ez.val))
  | _, _ => .error (.keyError "basePath or fieldsPath", f)

/-- Embedding of `write_particles` (source lines 209-253) in source order:
path construction (line 210), the charge group with its three attributes
(lines 213-217), the mass group with its three attributes (lines 220-224),
the species `longName` (line 227), and then line 228, which calls
`addEDPICAttrParticles` — an undefined global name (the helper defined at
line 186 is `add_EDPIC_attr_particles`), so Python raises `NameError` here
and the remaining lines 231-253 (weighting, position and momentum datasets
with their `unitSI`/`unitDimension` attributes) never execute. -/
def write_particles (f : H5File) : Except (PyErr × H5File) H5File :=
  match f.rootStr "basePath", f.rootStr "particlesPath" with
  | some bp, some pp =>
    let fullParticlesPath := bp ++ pp
    match f.create_group (fullParticlesPath ++ "electrons/charge") with
    | .error e => .error e
    | .ok f1 =>
      let f2 := f1
        |>.setAttr (fullParticlesPath ++ "electrons/charge") "value" (.num (-1))
        |>.setAttr (fullParticlesPath ++ "electrons/charge") "unitSI" (.num qCharge)
        |>.setAttr (fullParticlesPath ++ "electrons/charge") "unitDimension"
            (.vec [0, 0, 1, 1, 0, 0, 0])
      match f2.create_group (fullParticlesPath ++ "electrons/mass") with
      | .error e => .error e
      | .ok f3 =>
        let f4 := f3
          |>.setAttr (fullParticlesPath ++ "electrons/mass") "value" (.num 1)
          |>.setAttr (fullParticlesPath ++ "electrons/mass") "unitSI" (.num qMass)
          |>.setAttr (fullParticlesPath ++ "electrons/mass") "unitDimension"
              (.vec [0, 1, 0, 0, 0, 0, 0])
          |>.setAttr (fullParticlesPath ++ "electrons") "longName"
              (.str "My first electron species")
        .error (.nameError "addEDPICAttrParticles", f4)
  | _, _ => .error (.keyError "basePath or particlesPath", f)

/-- The file right after `setup_root_attr` on a fresh file, as in the
script's main block. -/
def rootedFile (it : Int) (d : String) : H5File :=
  setup_root_attr H5File.empty it d

/-- The `basePath` value written for iteration `it`. -/
def basePathOf (it : Int) : String := "/data/" ++ toString it ++ "/"

/-- The path of the rho dataset for iteration `it`. -/
def rhoPathOf (it : Int) : String := basePathOf it ++ "fields/" ++ "rho"

/-- The path of the E field group for iteration `it`. -/
def ePathOf (it : Int) : String := basePathOf it ++ "fields/" ++ "E/"

/-- The particles path prefix for iteration `it`. -/
def particlesPathOf (it : Int) : String := basePathOf it ++ "particles/"

/-- Projection: the resulting file of a successful call. -/
def runFile : Except (PyErr × H5File) H5File → Option H5File
  | .ok f => some f
  | .error _ => none

/-- Projection: the file state carried by a raised exception. -/
def errFile : Except (PyErr × H5File) H5File → Option H5File
  | .error (_, f) => some f
  | .ok _ => none

/-- Projection: the raised exception, if any. -/
def errOf : Except (PyErr × H5File) H5File → Option PyErr
  | .error (e, _) => some e
  | .ok _ => none

/-- A 2-D all-zero real array of the given shape (`np.zeros((r, c))`). -/
def zeroArr (r c : Nat) : Arr2 := ⟨r, c, fun _ _ => 0⟩

/-- A 2-D all-zero complex array of the given shape. -/
def zeroCArr (r c : Nat) : CArr2 := ⟨r, c, fun _ _ => 0, fun _ _ => 0⟩

/-- A sample generation timestamp string. -/
def exDate : String := "2015-01-01 00:00:00 +0000"

/-- The rho dataset exists in `g`, with leading axis 3 over mode0's 2-D
shape, and is still entirely zero-filled (no mode data written). -/
def rhoCreatedBlank (it : Int) (mode0 : Arr2) (g : H5File) : Prop :=
  ∃ ds, lookupA g.datasets (rhoPathOf it) = some ds ∧
    ds.shape = [3, mode0.rows, mode0.cols] ∧ ∀ idx, ds.data idx = 0

/-- All sixteen rho attributes written by source lines 76-98 are present in
`g` with the values the script writes. -/
def rhoAttrsPresent (it : Int) (g : H5File) : Prop :=
  g.getAttr (rhoPathOf it) "geometry" = some (.str "cylindrical") ∧
  g.getAttr (rhoPathOf it) "geometryParameters" = some (.str "m=1; imag=+") ∧
  g.getAttr (rhoPathOf it) "unitSI" = some (.num 1) ∧
  g.getAttr (rhoPathOf it) "unitDimension" = some (.vec [-3, 0, 1, 1, 0, 0, 0]) ∧
  g.getAttr (rhoPathOf it) "time" = some (.num 0) ∧
  g.getAttr (rhoPathOf it) "timeUnitSI" = some (.num qNano) ∧
  g.getAttr (rhoPathOf it) "gridSpacing" = some (.vec [1, 1]) ∧
  g.getAttr (rhoPathOf it) "gridGlobalOffset" = some (.vec [0, 0]) ∧
  g.getAttr (rhoPathOf it) "position" = some (.vec [0, 0]) ∧
  g.getAttr (rhoPathOf it) "gridUnitSI" = some (.num 1) ∧
  g.getAttr (rhoPathOf it) "dataOrder" = some (.str "C") ∧
  g.getAttr (rhoPathOf it) "fieldSolver" = some (.str "Yee") ∧
  g.getAttr (rhoPathOf it) "fieldSolverOrder" = some (.num 2) ∧
  g.getAttr (rhoPathOf it) "fieldSmoothing" = some (.str "none") ∧
  g.getAttr (rhoPathOf it) "currentSmoothing" = some (.str "none") ∧
  g.getAttr (rhoPathOf it) "chargeCorrection" = some (.str "none")

/-- The rho dataset of `g` holds mode0 in layer 0, the real part of mode1 in
layer 1 and the imaginary part of mode1 in layer 2, element for element. -/
def rhoFilled (it : Int) (mode0 : Arr2) (mode1 : CArr2) (g : H5File) : Prop :=
  ∃ ds, lookupA g.datasets (rhoPathOf it) = some ds ∧
    ds.shape = [3, mode0.rows, mode0.cols] ∧
    (∀ i j, ds.data [0, i, j] = mode0.val i j) ∧
    (∀ i j, ds.data [1, i, j] = mode1.re i j) ∧
    (∀ i j, ds.data [2, i, j] = mode1.im i j)

/-- The file state of `write_rho_cylindrical` right after the
`create_dataset` call of source line 75, starting from the rooted file. -/
def rhoBlankStage (it : Int) (d : String) (mode0 : Arr2) : H5File :=
  { rootedFile it d with
      datasets := [(rhoPathOf it, ⟨[3, mode0.rows, mode0.cols], fun _ => 0⟩)] }

/-- The file state of `write_rho_cylindrical` right after the attribute
writes of source lines 76-98 — the state a raised shape-mismatch ValueError
leaves behind. -/
def rhoAttrStage (it : Int) (d : String) (mode0 : Arr2) : H5File :=
  add_EDPIC_attr_fields
    (rhoBlankStage it d mode0
      |>.setAttr (rhoPathOf it) "geometry" (.str "cylindrical")
      |>.setAttr (rhoPathOf it) "geometryParameters" (.str "m=1; imag=+")
      |>.setAttr (rhoPathOf it) "unitSI" (.num 1)
      |>.setAttr (rhoPathOf it) "unitDimension" (.vec [-3, 0, 1, 1, 0, 0, 0])
      |>.setAttr (rhoPathOf it) "time" (.num 0)
      |>.setAttr (rhoPathOf it) "timeUnitSI" (.num qNano)
      |>.setAttr (rhoPathOf it) "gridSpacing" (.vec [1, 1])
      |>.setAttr (rhoPathOf it) "gridGlobalOffset" (.vec [0, 0])
      |>.setAttr (rhoPathOf it) "position" (.vec [0, 0])
      |>.setAttr (rhoPathOf it) "gridUnitSI" (.num 1)
      |>.setAttr (rhoPathOf it) "dataOrder" (.str "C"))
    (rhoPathOf it)

/-- The file state of `write_rho_cylindrical` after the three layer fills of
source lines 103-105 — the state returned on success. -/
def rhoFillStage (it : Int) (d : String) (mode0 : Arr2) (mode1 : CArr2) : H5File :=
  rhoAttrStage it d mode0
    |>.updateDSet (rhoPathOf it) (fun ds => ds.setLayer 0 mode0.val)
    |>.updateDSet (rhoPathOf it) (fun ds => ds.setLayer 1 mode1.re)
    |>.updateDSet (rhoPathOf it) (fun ds => ds.setLayer 2 mode1.im)

/-- The file state of `write_e_2d_cartesian` right after the three
`create_dataset` calls of source lines 126-128, starting from the rooted
file. -/
def eBlankStage (it : Int) (d : String) (ex ey ez : Arr2) : H5File :=
  { rootedFile it d with
      datasets := [(ePathOf it ++ "z", ⟨[ez.rows, ez.cols], fun _ => 0⟩),
                   (ePathOf it ++ "y", ⟨[ey.rows, ey.cols], fun _ => 0⟩),
                   (ePathOf it ++ "x", ⟨[ex.rows, ex.cols], fun _ => 0⟩)] }

/-- The file state of `write_e_2d_cartesian` after the attribute writes of
source lines 131-151. -/
def eAttrStage (it : Int) (d : String) (ex ey ez : Arr2) : H5File :=
  add_EDPIC_attr_fields
    (eBlankStage it d ex ey ez
      |>.setAttr (ePathOf it) "geometry" (.str "cartesian")
      |>.setAttr (ePathOf it) "gridSpacing" (.vec [1, 1])
      |>.setAttr (ePathOf it) "gridGlobalOffset" (.vec [0, 0])
      |>.setAttr (ePathOf it) "gridUnitSI" (.num 1)
      |>.setAttr (ePathOf it) "dataOrder" (.str "C")
      |>.setAttr (ePathOf it) "unitDimension" (.vec [1, 1, -3, -1, 0, 0, 0]))
    (ePathOf it)
    |>.setAttr (ePathOf it) "time" (.num 0)
    |>.setAttr (ePathOf it) "timeUnitSI" (.num qNano)
    |>.setAttr (ePathOf it ++ "x") "position" (.vec [0, 1/2])
    |>.setAttr (ePathOf it ++ "y") "position" (.vec [1/2, 0])
    |>.setAttr (ePathOf it ++ "z") "position" (.vec [0, 0])

/-- The file state of `write_e_2d_cartesian` after the fills of source lines
154-156 — the state returned on success. -/
def eFillStage (it : Int) (d : String) (ex ey ez : Arr2) : H5File :=
  eAttrStage it d ex ey ez
    |>.updateDSet (ePathOf it ++ "x") (fun ds => ds.setAll2 ex.val)
    |>.updateDSet (ePathOf it ++ "y") (fun ds => ds.setAll2 ey.val)
    |>.updateDSet (ePathOf it ++ "z") (fun ds => ds.setAll2 ez.val)

/-- The file state of `write_particles` at source line 228, when the call to
the undefined name `addEDPICAttrParticles` raises NameError: the charge and
mass groups with their attributes and the species longName are written; no
dataset has been created. -/
def particlesStage (it : Int) (d : String) : H5File :=
  let pp := particlesPathOf it
  let f1 := { rootedFile it d with groups := [pp ++ "electrons/charge"] }
  let f2 := f1
    |>.setAttr (pp ++ "electrons/charge") "value" (.num (-1))
    |>.setAttr (pp ++ "electrons/charge") "unitSI" (.num qCharge)
    |>.setAttr (pp ++ "electrons/charge") "unitDimension" (.vec [0, 0, 1, 1, 0, 0, 0])
  let f3 := { f2 with groups := (pp ++ "electrons/mass") :: f2.groups }
  f3
    |>.setAttr (pp ++ "electrons/mass") "value" (.num 1)
    |>.setAttr (pp ++ "electrons/mass") "unitSI" (.num qMass)
    |>.setAttr (pp ++ "electrons/mass") "unitDimension" (.vec [0, 1, 0, 0, 0, 0, 0])
    |>.setAttr (pp ++ "electrons") "longName" (.str "My first electron species")

/-! Helper lemmas about path strings. -/

/-- Appending distinct suffixes to one prefix string yields distinct paths. -/
lemma append_ne (s : String) {t1 t2 : String} (h : t1 ≠ t2) : s ++ t1 ≠ s ++ t2 := by
  intro he
  apply h
  have hd : (s ++ t1).data = (s ++ t2).data := congrArg String.data he
  rw [String.data_append, String.data_append] at hd
  exact String.ext (List.append_cancel_left hd)

/-- Appending a nonempty suffix changes a path string. -/
lemma append_ne_self (s : String) {t : String} (h : t ≠ "") : s ++ t ≠ s := by
  intro he
  apply h
  have hd : (s ++ t).data = s.data := congrArg String.data he
  rw [String.data_append] at hd
  have hl : s.data.length + t.data.length = s.data.length := by
    simpa using congrArg List.length hd
  have ht : t.data = [] := List.eq_nil_of_length_eq_zero (by omega)
  exact String.ext ht

/-- C8: after `setup_root_attr` runs with iteration `it`, the root attributes
hold version "1.0.0", basePath = "/data/%d/" instantiated with `it`,
fieldsPath "fields/", particlesPath "particles/", iterationEncoding
"fileBased", iterationFormat "/data/%T/", plus author, software, date and
comment strings. -/
theorem root_attr_values (f : H5File) (it : Int) (d : String) :
    (setup_root_attr f it d).rootAttr "version" = some (.str "1.0.0") ∧
    (setup_root_attr f it d).rootAttr "basePath"
      = some (.str ("/data/" ++ toString it ++ "/")) ∧
    (setup_root_attr f it d).rootAttr "fieldsPath" = some (.str "fields/") ∧
    (setup_root_attr f it d).rootAttr "particlesPath" = some (.str "particles/") ∧
    (setup_root_attr f it d).rootAttr "iterationEncoding" = some (.str "fileBased") ∧
    (setup_root_attr f it d).rootAttr "iterationFormat" = some (.str "/data/%T/") ∧
    (setup_root_attr f it d).rootAttr "author"
      = some (.str "Axel Huebl <a.huebl@hzdr.de>") ∧
    (setup_root_attr f it d).rootAttr "software"
      = some (.str "OpenPMD Example Script") ∧
    (setup_root_attr f it d).rootAttr "date" = some (.str d) ∧
    (setup_root_attr f it d).rootAttr "comment"
      = some (.str "This is a dummy file for test purposes.") := by
  refine ⟨?_, ?_, ?_, ?_, ?_, ?_, ?_, ?_, ?_, ?_⟩ <;>
    simp [setup_root_attr, H5File.setRootAttr, H5File.rootAttr, lookupA]

/-- C9 counterexample: `setup_root_attr` does not write identical attribute
values regardless of the iteration argument — calls with iterations 0 and 1
write different `basePath` values ("/data/0/" versus "/data/1/"). -/
theorem root_attr_varies_cex :
    (setup_root_attr H5File.empty 0 "2015-01-01").rootAttr "basePath" ≠
      (setup_root_attr H5File.empty 1 "2015-01-01").rootAttr "basePath" := by
  decide

/-- C9 amended: the eight attributes version, fieldsPath, particlesPath,
iterationEncoding, iterationFormat, author, software and comment are fixed
literals, identical across any two calls of `setup_root_attr`; but basePath
varies with the iteration argument ("/data/%d/" instantiated with it) and
date carries the clock reading of the call. -/
theorem root_attr_fixed_except_basePath_date (f1 f2 : H5File) (it1 it2 : Int)
    (d1 d2 : String) :
    ((setup_root_attr f1 it1 d1).rootAttr "version"
      = (setup_root_attr f2 it2 d2).rootAttr "version") ∧
    ((setup_root_attr f1 it1 d1).rootAttr "fieldsPath"
      = (setup_root_attr f2 it2 d2).rootAttr "fieldsPath") ∧
    ((setup_root_attr f1 it1 d1).rootAttr "particlesPath"
      = (setup_root_attr f2 it2 d2).rootAttr "particlesPath") ∧
    ((setup_root_attr f1 it1 d1).rootAttr "iterationEncoding"
      = (setup_root_attr f2 it2 d2).rootAttr "iterationEncoding") ∧
    ((setup_root_attr f1 it1 d1).rootAttr "iterationFormat"
      = (setup_root_attr f2 it2 d2).rootAttr "iterationFormat") ∧
    ((setup_root_attr f1 it1 d1).rootAttr "author"
      = (setup_root_attr f2 it2 d2).rootAttr "author") ∧
    ((setup_root_attr f1 it1 d1).rootAttr "software"
      = (setup_root_attr f2 it2 d2).rootAttr "software") ∧
    ((setup_root_attr f1 it1 d1).rootAttr "comment"
      = (setup_root_attr f2 it2 d2).rootAttr "comment") ∧
    ((setup_root_attr f1 it1 d1).rootAttr "basePath"
      = some (.str ("/data/" ++ toString it1 ++ "/"))) ∧
    ((setup_root_attr f1 it1 d1).rootAttr "date" = some (.str d1)) := by
  refine ⟨?_, ?_, ?_, ?_, ?_, ?_, ?_, ?_, ?_, ?_⟩ <;>
    simp [setup_root_attr, H5File.setRootAttr, H5File.rootAttr, lookupA]

/-- C1: on the freshly rooted file, `write_rho_cylindrical` raises the
shape-mismatch ValueError if and only if `mode0.shape` differs from
`mode1.shape`, and for every equal-shaped pair the call completes without
error. -/
theorem rho_shape_error_iff (it : Int) (d : String) (mode0 : Arr2) (mode1 : CArr2) :
    (errOf (write_rho_cylindrical (rootedFile it d) mode0 mode1)
        = some (.valueError shapeMsg) ↔ mode0.shape ≠ mode1.shape)
    ∧ (mode0.shape = mode1.shape →
        errOf (write_rho_cylindrical (rootedFile it d) mode0 mode1) = none) := by
  by_cases h : mode0.shape = mode1.shape <;>
    constructor <;>
    simp [write_rho_cylindrical, rootedFile, setup_root_attr, H5File.setRootAttr,
      H5File.empty, H5File.rootStr, H5File.rootAttr, lookupA, H5File.create_dataset,
      H5File.hasNode, memA, errOf, h]

/-! Small computation lemmas used to reason about writer states without
unfolding the whole file value. -/

lemma getAttr_setAttr (f : H5File) (p n q m : String) (v : AttrVal) :
    (f.setAttr p n v).getAttr q m
      = if q = p ∧ m = n then some v else f.getAttr q m := rfl

lemma getAttr_updateDSet (f : H5File) (p q m : String) (g : DSet → DSet) :
    (f.updateDSet p g).getAttr q m = f.getAttr q m := rfl

lemma datasets_setAttr (f : H5File) (p n : String) (v : AttrVal) :
    (f.setAttr p n v).datasets = f.datasets := rfl

lemma datasets_addEDPICfields (f : H5File) (s : String) :
    (add_EDPIC_attr_fields f s).datasets = f.datasets := rfl

lemma getAttr_rootedFile (it : Int) (d q m : String) :
    (rootedFile it d).getAttr q m = none := rfl

lemma getAttr_rhoBlankStage (it : Int) (d : String) (mode0 : Arr2) (q m : String) :
    (rhoBlankStage it d mode0).getAttr q m = none := rfl

lemma datasets_rootedFile (it : Int) (d : String) :
    (rootedFile it d).datasets = [] := rfl

lemma groups_rootedFile (it : Int) (d : String) :
    (rootedFile it d).groups = [] := rfl

lemma rootStr_rootedFile_basePath (it : Int) (d : String) :
    (rootedFile it d).rootStr "basePath" = some (basePathOf it) := by
  simp [rootedFile, setup_root_attr, H5File.setRootAttr, H5File.rootStr,
    H5File.rootAttr, lookupA, H5File.empty, basePathOf]

lemma rootStr_rootedFile_fieldsPath (it : Int) (d : String) :
    (rootedFile it d).rootStr "fieldsPath" = some "fields/" := by
  simp [rootedFile, setup_root_attr, H5File.setRootAttr, H5File.rootStr,
    H5File.rootAttr, lookupA, H5File.empty]

lemma rootStr_rootedFile_particlesPath (it : Int) (d : String) :
    (rootedFile it d).rootStr "particlesPath" = some "particles/" := by
  simp [rootedFile, setup_root_attr, H5File.setRootAttr, H5File.rootStr,
    H5File.rootAttr, lookupA, H5File.empty]

lemma create_dataset_rootedFile (it : Int) (d p : String) (s : List Nat) :
    (rootedFile it d).create_dataset p s
      = .ok { rootedFile it d with datasets := [(p, ⟨s, fun _ => 0⟩)] } := by
  simp [H5File.create_dataset, H5File.hasNode, datasets_rootedFile,
    groups_rootedFile, lookupA, memA]

/-- Reduction of the rho writer on the freshly rooted file: the dataset and
all attributes are created first; then the shape check either raises (keeping
`rhoAttrStage`) or the three layers are filled (`rhoFillStage`). -/
lemma write_rho_rooted (it : Int) (d : String) (mode0 : Arr2) (mode1 : CArr2) :
    write_rho_cylindrical (rootedFile it d) mode0 mode1
      = if mode0.shape ≠ mode1.shape
          then .error (.valueError shapeMsg, rhoAttrStage it d mode0)
          else .ok (rhoFillStage it d mode0 mode1) := by
  simp only [write_rho_cylindrical, rootStr_rootedFile_basePath,
    rootStr_rootedFile_fieldsPath, create_dataset_rootedFile,
    rhoFillStage, rhoAttrStage, rhoBlankStage, rhoPathOf]


lemma lookupA_head {α : Type} (k : String) (v : α) (rest : List (String × α)) :
    lookupA ((k, v) :: rest) k = some v := by
  unfold lookupA
  rw [if_pos rfl]

lemma datasets_updateDSet (f : H5File) (p : String) (g : DSet → DSet) :
    (f.updateDSet p g).datasets
      = f.datasets.map (fun kv => if kv.1 = p then (kv.1, g kv.2) else kv) := rfl

lemma updateDSet_single (f : H5File) (p : String) (ds : DSet) (g : DSet → DSet)
    (hf : f.datasets = [(p, ds)]) :
    (f.updateDSet p g).datasets = [(p, g ds)] := by
  rw [datasets_updateDSet, hf, List.map_cons, List.map_nil, if_pos rfl]

lemma datasets_rhoAttrStage (it : Int) (d : String) (mode0 : Arr2) :
    (rhoAttrStage it d mode0).datasets
      = [(rhoPathOf it, ⟨[3, mode0.rows, mode0.cols], fun _ => 0⟩)] := rfl

lemma datasets_rhoFillStage (it : Int) (d : String) (mode0 : Arr2) (mode1 : CArr2) :
    (rhoFillStage it d mode0 mode1).datasets
      = [(rhoPathOf it,
          ((⟨[3, mode0.rows, mode0.cols], fun _ => 0⟩ : DSet).setLayer 0 mode0.val
            |>.setLayer 1 mode1.re |>.setLayer 2 mode1.im))] := by
  unfold rhoFillStage
  have h1 := updateDSet_single _ (rhoPathOf it) _ (fun ds => ds.setLayer 0 mode0.val)
    (datasets_rhoAttrStage it d mode0)
  have h2 := updateDSet_single _ (rhoPathOf it) _ (fun ds => ds.setLayer 1 mode1.re) h1
  exact updateDSet_single _ (rhoPathOf it) _ (fun ds => ds.setLayer 2 mode1.im) h2

/-- C2 counterexample: after a failed mismatched-shape call (1×1 real mode
against 1×2 complex mode), the file does contain the rho dataset and its
attributes — the write is partial, not "state unchanged on error". -/
theorem rho_mismatch_leftover_cex :
    errOf (write_rho_cylindrical (rootedFile 0 exDate) (zeroArr 1 1) (zeroCArr 1 2))
      = some (.valueError shapeMsg) ∧
    (errFile (write_rho_cylindrical (rootedFile 0 exDate) (zeroArr 1 1) (zeroCArr 1 2))).map
      (fun g => (lookupA g.datasets (rhoPathOf 0)).isSome) = some true ∧
    (errFile (write_rho_cylindrical (rootedFile 0 exDate) (zeroArr 1 1) (zeroCArr 1 2))).map
      (fun g => (g.getAttr (rhoPathOf 0) "geometry").isSome) = some true := by
  refine ⟨?_, ?_, ?_⟩ <;> decide

/-- C2 amended: for every mismatched-shape pair, `write_rho_cylindrical`
fails with the shape-mismatch ValueError, but a partial write has already
occurred: the rho dataset exists (shape 3 × mode0.shape, still zero-filled)
and all its attributes are written; only the mode-data fill is skipped. -/
theorem rho_mismatch_leftover_state (it : Int) (d : String) (mode0 : Arr2)
    (mode1 : CArr2) (h : mode0.shape ≠ mode1.shape) :
    ∃ g, write_rho_cylindrical (rootedFile it d) mode0 mode1
        = .error (.valueError shapeMsg, g) ∧
      rhoCreatedBlank it mode0 g ∧ rhoAttrsPresent it g := by
  refine ⟨rhoAttrStage it d mode0, ?_, ?_, ?_⟩
  · rw [write_rho_rooted, if_pos h]
  · refine ⟨⟨[3, mode0.rows, mode0.cols], fun _ => 0⟩, ?_, rfl, fun _ => rfl⟩
    rw [datasets_rhoAttrStage, lookupA_head]
  · simp [rhoAttrsPresent, rhoAttrStage, add_EDPIC_attr_fields, getAttr_setAttr,
      getAttr_rhoBlankStage]

/-- C2 witness: the amended statement at the concrete mismatched pair
1×1 versus 1×2. -/
theorem rho_mismatch_leftover_state_witness :
    (zeroArr 1 1).shape ≠ (zeroCArr 1 2).shape ∧
    ∃ g, write_rho_cylindrical (rootedFile 0 exDate) (zeroArr 1 1) (zeroCArr 1 2)
        = .error (.valueError shapeMsg, g) ∧
      rhoCreatedBlank 0 (zeroArr 1 1) g ∧ rhoAttrsPresent 0 g :=
  ⟨by decide,
   rho_mismatch_leftover_state 0 exDate (zeroArr 1 1) (zeroCArr 1 2) (by decide)⟩

/-- C3: for every equal-shaped pair (mode0 real, mode1 complex),
`write_rho_cylindrical` succeeds and produces a 3-layer array whose layer 0
equals mode0, layer 1 equals the real part of mode1 and layer 2 equals the
imaginary part of mode1, element for element. -/
theorem rho_equal_layers (it : Int) (d : String) (mode0 : Arr2) (mode1 : CArr2)
    (h : mode0.shape = mode1.shape) :
    ∃ f', write_rho_cylindrical (rootedFile it d) mode0 mode1 = .ok f' ∧
      rhoFilled it mode0 mode1 f' := by
  refine ⟨rhoFillStage it d mode0 mode1, ?_, ?_⟩
  · rw [write_rho_rooted, if_neg (not_not_intro h)]
  · refine ⟨((⟨[3, mode0.rows, mode0.cols], fun _ => 0⟩ : DSet).setLayer 0 mode0.val
        |>.setLayer 1 mode1.re |>.setLayer 2 mode1.im), ?_, rfl, ?_, ?_, ?_⟩
    · rw [datasets_rhoFillStage, lookupA_head]
    · intro i j
      simp [DSet.setLayer]
    · intro i j
      simp [DSet.setLayer]
    · intro i j
      simp [DSet.setLayer]

/-- C3 witness: the layer decomposition at a concrete equal-shaped 2×3
pair. -/
theorem rho_equal_layers_witness :
    (zeroArr 2 3).shape = (zeroCArr 2 3).shape ∧
    ∃ f', write_rho_cylindrical (rootedFile 0 exDate) (zeroArr 2 3) (zeroCArr 2 3)
        = .ok f' ∧ rhoFilled 0 (zeroArr 2 3) (zeroCArr 2 3) f' :=
  ⟨by decide, rho_equal_layers 0 exDate (zeroArr 2 3) (zeroCArr 2 3) (by decide)⟩

/-- C5: for mode0 a 32×64 all-zero real array and mode1 a 32×64 all-zero
complex array, `write_rho_cylindrical` writes a 3×32×64 array of all zeros
whose unitDimension attribute is [-3, 0, 1, 1, 0, 0, 0] and whose
geometryParameters attribute is the string "m=1; imag=+". -/
theorem rho_zero_scenario :
    ∃ f', write_rho_cylindrical (rootedFile 0 exDate) (zeroArr 32 64) (zeroCArr 32 64)
        = .ok f' ∧
      (∃ ds, lookupA f'.datasets (rhoPathOf 0) = some ds ∧
        ds.shape = [3, 32, 64] ∧ ∀ idx, ds.data idx = 0) ∧
      f'.getAttr (rhoPathOf 0) "unitDimension" = some (.vec [-3, 0, 1, 1, 0, 0, 0]) ∧
      f'.getAttr (rhoPathOf 0) "geometryParameters" = some (.str "m=1; imag=+") := by
  refine ⟨rhoFillStage 0 exDate (zeroArr 32 64) (zeroCArr 32 64), ?_, ?_, ?_, ?_⟩
  · rw [write_rho_rooted, if_neg (by decide)]
  · refine ⟨((⟨[3, (zeroArr 32 64).rows, (zeroArr 32 64).cols], fun _ => 0⟩ : DSet).setLayer
          0 (zeroArr 32 64).val
        |>.setLayer 1 (zeroCArr 32 64).re |>.setLayer 2 (zeroCArr 32 64).im),
        ?_, rfl, ?_⟩
    · rw [datasets_rhoFillStage, lookupA_head]
    · intro idx
      rcases idx with _ | ⟨a, _ | ⟨b, _ | ⟨c, _ | ⟨e, tl⟩⟩⟩⟩ <;>
        simp [DSet.setLayer, zeroArr, zeroCArr, ite_self]
  · simp [rhoFillStage, getAttr_updateDSet, rhoAttrStage, add_EDPIC_attr_fields,
      getAttr_setAttr, getAttr_rhoBlankStage]
  · simp [rhoFillStage, getAttr_updateDSet, rhoAttrStage, add_EDPIC_attr_fields,
      getAttr_setAttr, getAttr_rhoBlankStage]

lemma nodeAttrs_rootedFile (it : Int) (d : String) :
    (rootedFile it d).nodeAttrs = [] := rfl

lemma getAttr_eBlankStage (it : Int) (d : String) (ex ey ez : Arr2) (q m : String) :
    (eBlankStage it d ex ey ez).getAttr q m = none := rfl

lemma write_e_rooted0 (d : String) (ex ey ez : Arr2) :
    write_e_2d_cartesian (rootedFile 0 d) ex ey ez = .ok (eFillStage 0 d ex ey ez) := rfl

lemma write_particles_rooted0 (d : String) :
    write_particles (rootedFile 0 d)
      = .error (.nameError "addEDPICAttrParticles", particlesStage 0 d) := rfl

/-- C4: for every triple of 2-D arrays, `write_e_2d_cartesian` succeeds and
produces exactly three component datasets E/x, E/y, E/z whose shapes equal
the respective inputs' shapes, under one group carrying the shared
geometry/grid attributes, with per-component position attributes
E/x.position = [0, 0.5], E/y.position = [0.5, 0], E/z.position = [0, 0]. -/
theorem e_writer_three_components (d : String) (ex ey ez : Arr2) :
    ∃ f', write_e_2d_cartesian (rootedFile 0 d) ex ey ez = .ok f' ∧
      f'.datasets.map (fun kv => (kv.1, kv.2.shape))
        = [(ePathOf 0 ++ "z", [ez.rows, ez.cols]),
           (ePathOf 0 ++ "y", [ey.rows, ey.cols]),
           (ePathOf 0 ++ "x", [ex.rows, ex.cols])] ∧
      f'.getAttr (ePathOf 0) "geometry" = some (.str "cartesian") ∧
      f'.getAttr (ePathOf 0) "gridSpacing" = some (.vec [1, 1]) ∧
      f'.getAttr (ePathOf 0) "gridGlobalOffset" = some (.vec [0, 0]) ∧
      f'.getAttr (ePathOf 0) "gridUnitSI" = some (.num 1) ∧
      f'.getAttr (ePathOf 0) "dataOrder" = some (.str "C") ∧
      f'.getAttr (ePathOf 0) "unitDimension" = some (.vec [1, 1, -3, -1, 0, 0, 0]) ∧
      f'.getAttr (ePathOf 0) "time" = some (.num 0) ∧
      f'.getAttr (ePathOf 0) "timeUnitSI" = some (.num qNano) ∧
      f'.getAttr (ePathOf 0 ++ "x") "position" = some (.vec [0, 1/2]) ∧
      f'.getAttr (ePathOf 0 ++ "y") "position" = some (.vec [1/2, 0]) ∧
      f'.getAttr (ePathOf 0 ++ "z") "position" = some (.vec [0, 0]) :=
  ⟨eFillStage 0 d ex ey ez, write_e_rooted0 d ex ey ez, rfl, rfl, rfl, rfl, rfl,
    rfl, rfl, rfl, rfl, rfl, rfl, rfl⟩

/-- C6: `write_particles` never creates the 128-length weighting, position
and momentum arrays: the call raises NameError (undefined name
`addEDPICAttrParticles`) first, leaving the file with no dataset at all. -/
theorem particles_writer_no_arrays_bug (d : String) :
    errOf (write_particles (rootedFile 0 d)) = some (.nameError "addEDPICAttrParticles") ∧
    (errFile (write_particles (rootedFile 0 d))).map
      (fun g => (lookupA g.datasets (particlesPathOf 0 ++ "electrons/weighting")).isSome)
      = some false ∧
    (errFile (write_particles (rootedFile 0 d))).map (fun g => g.datasets.isEmpty)
      = some true :=
  ⟨rfl, rfl, rfl⟩

/-- C10: every call of `write_particles` on the rooted file raises NameError
for the undefined name `addEDPICAttrParticles`, after having created the
electrons/charge and electrons/mass groups with their value, unitSI and
unitDimension attributes and the species longName, and before any weighting,
position or momentum dataset is created. -/
theorem particles_name_error_flow (d : String) :
    ∃ g, write_particles (rootedFile 0 d) = .error (.nameError "addEDPICAttrParticles", g) ∧
      g.groups = [particlesPathOf 0 ++ "electrons/mass",
                  particlesPathOf 0 ++ "electrons/charge"] ∧
      g.datasets = [] ∧
      g.getAttr (particlesPathOf 0 ++ "electrons/charge") "value" = some (.num (-1)) ∧
      g.getAttr (particlesPathOf 0 ++ "electrons/charge") "unitSI" = some (.num qCharge) ∧
      g.getAttr (particlesPathOf 0 ++ "electrons/charge") "unitDimension"
        = some (.vec [0, 0, 1, 1, 0, 0, 0]) ∧
      g.getAttr (particlesPathOf 0 ++ "electrons/mass") "value" = some (.num 1) ∧
      g.getAttr (particlesPathOf 0 ++ "electrons/mass") "unitSI" = some (.num qMass) ∧
      g.getAttr (particlesPathOf 0 ++ "electrons/mass") "unitDimension"
        = some (.vec [0, 1, 0, 0, 0, 0, 0]) ∧
      g.getAttr (particlesPathOf 0 ++ "electrons") "longName"
        = some (.str "My first electron species") :=
  ⟨particlesStage 0 d, rfl, rfl, rfl, rfl, rfl, rfl, rfl, rfl, rfl, rfl⟩

/-- C7 counterexample: after a successful `write_e_2d_cartesian` call the E
group and its component datasets carry a unitDimension attribute but no
unitSI attribute at any level — the unit-scale half of the invariant fails
for the E field. -/
theorem unit_invariant_cex :
    (runFile (write_e_2d_cartesian (rootedFile 0 exDate) (zeroArr 1 1) (zeroArr 1 1)
        (zeroArr 1 1))).map
      (fun f => ((f.getAttr (ePathOf 0) "unitSI").isSome,
                 (f.getAttr (ePathOf 0 ++ "x") "unitSI").isSome,
                 (f.getAttr (ePathOf 0 ++ "y") "unitSI").isSome,
                 (f.getAttr (ePathOf 0 ++ "z") "unitSI").isSome,
                 (f.getAttr (ePathOf 0) "unitDimension").isSome))
      = some (false, false, false, false, true) := by
  decide

/-- C7 amended: every numeric array-valued field actually written carries a
7-element unitDimension at the dataset or group level; the rho dataset also
carries unitSI, but the E group and components carry no unitSI (only
gridUnitSI); the weighting, position and momentum arrays are never written
because `write_particles` raises NameError before creating them. -/
theorem unit_attrs_amended :
    (∀ (d : String) (mode0 : Arr2) (mode1 : CArr2),
      ∃ g, (write_rho_cylindrical (rootedFile 0 d) mode0 mode1 = .ok g ∨
            write_rho_cylindrical (rootedFile 0 d) mode0 mode1
              = .error (.valueError shapeMsg, g)) ∧
        g.getAttr (rhoPathOf 0) "unitSI" = some (.num 1) ∧
        g.getAttr (rhoPathOf 0) "unitDimension" = some (.vec [-3, 0, 1, 1, 0, 0, 0])) ∧
    (∀ (d : String) (ex ey ez : Arr2),
      ∃ f', write_e_2d_cartesian (rootedFile 0 d) ex ey ez = .ok f' ∧
        f'.getAttr (ePathOf 0) "unitDimension" = some (.vec [1, 1, -3, -1, 0, 0, 0]) ∧
        f'.getAttr (ePathOf 0) "unitSI" = none ∧
        f'.getAttr (ePathOf 0 ++ "x") "unitSI" = none ∧
        f'.getAttr (ePathOf 0 ++ "y") "unitSI" = none ∧
        f'.getAttr (ePathOf 0 ++ "z") "unitSI" = none ∧
        f'.getAttr (ePathOf 0) "gridUnitSI" = some (.num 1)) ∧
    (∀ d : String,
      errOf (write_particles (rootedFile 0 d)) = some (.nameError "addEDPICAttrParticles") ∧
      (errFile (write_particles (rootedFile 0 d))).map (fun g => g.datasets.isEmpty)
        = some true) := by
  refine ⟨?_, ?_, ?_⟩
  · intro d mode0 mode1
    rw [write_rho_rooted]
    by_cases h : mode0.shape = mode1.shape
    · rw [if_neg (not_not_intro h)]
      exact ⟨rhoFillStage 0 d mode0 mode1, .inl rfl, rfl, rfl⟩
    · rw [if_pos h]
      exact ⟨rhoAttrStage 0 d mode0, .inr rfl, rfl, rfl⟩
  · intro d ex ey ez
    exact ⟨eFillStage 0 d ex ey ez, write_e_rooted0 d ex ey ez, rfl, rfl, rfl, rfl,
      rfl, rfl⟩
  · intro d
    exact ⟨rfl, rfl⟩
